import Mathlib

/-!
Verification of the port-bounce automation script `ccc_example.py`
(Cisco DNAC/Catalyst Center demo).

The script is a strictly sequential orchestration over a remote REST
controller.  We embed it shallowly: every HTTP exchange is mediated by an
explicit environment record that scripts the controller responses the code
would observe, and each Python function becomes a pure Lean function from
its arguments and that environment to a result.  Side effects that the
specification talks about (PUT requests issued, task-status polls, fixed
`sleep(1)` delays) are reified as an event trace returned alongside the
outcome.  Python exceptions become explicit error values; this includes the
exact exception classes the interpreter would raise (`IndexError`,
`UnboundLocalError`) on paths where the source code slips outside its own
`try/except` coverage.

Source: `src/ccc_example.py`.
-/

namespace CCC

/-! ## Python value and substring helpers -/

/-- Result of a Python `dict.get(key, {})` on a slot expected to hold a
string: either the string that was present, or the `{}` default.  Both the
empty string and the empty-dict default are falsy. -/
inductive PVal where
  | str (s : String)
  | emptyDict
  deriving DecidableEq, Repr

/-- Python truthiness for the values produced by `dict.get(key, {})`. -/
def PVal.truthy : PVal → Bool
  | .str s => s ≠ ""
  | .emptyDict => false

/-- Reads an optional JSON string field the way `d.get(key, {})` does:
a missing key yields the falsy `{}` default. -/
def pyGet : Option String → PVal
  | none => PVal.emptyDict
  | some s => PVal.str s

/-- List-of-characters prefix test (building block for the substring test
the idempotency tolerance performs). -/
def isPrefixL : List Char → List Char → Bool
  | [], _ => true
  | _ :: _, [] => false
  | a :: as, b :: bs => a = b && isPrefixL as bs

/-- Whether `needle` occurs as a contiguous run inside the haystack. -/
def containsL (needle : List Char) : List Char → Bool
  | [] => needle.isEmpty
  | b :: bs => isPrefixL needle (b :: bs) || containsL needle bs

/-- Python `needle in hay` on strings: substring containment. -/
def strContains (hay needle : String) : Bool :=
  containsL needle.toList hay.toList

/-! ## Data model of the controller responses the script inspects -/

/-- Parsed body of `GET /dna/intent/api/v1/client-detail?macAddress=...`,
restricted to the fields `get_client_details` reads.
`port` models `json_resp["detail"]["port"]` (a hard key access; we consider
responses where it is present).  `connectedDevice` is `none` when the key
is absent from `detail`; each list entry is that entry's optional `"id"`
field (`none` when the entry has no `"id"` key).  `nodes` is the topology
node list, `none` when `topology` or `topology.nodes` is absent; each
element is that node's optional `"id"` field. -/
structure ClientDetailResp where
  port : String
  connectedDevice : Option (List (Option String))
  nodes : Option (List (Option String))
  deriving DecidableEq, Repr

/-- Parsed body of the interface-by-name lookup, restricted to the fields
`get_interface_details` reads: `response.id` and `response.adminStatus`,
each `none` when the key is absent. -/
structure InterfaceResp where
  id : Option String
  adminStatus : Option String
  deriving DecidableEq, Repr

/-- Parsed body of a state-change PUT that returned 2xx: the raw body text
(checked against `""`) and the optional `response.taskId` field. -/
structure PutOk where
  text : String
  taskId : Option String
  deriving DecidableEq, Repr

/-- Controller behaviour on one state-change PUT: either a non-2xx status,
which `raise_for_status()` turns into an `HTTPError` carrying the response
body text, or a 2xx response with a body. -/
inductive PutRes where
  | httpError (body : String)
  | ok (r : PutOk)
  deriving DecidableEq, Repr

/-! ## Errors -/

/-- Exceptions `get_client_details` can raise past the `detail.port`
access.  `indexError` is the uncaught `IndexError` from
`connectedDevice[0]` on an empty list (the surrounding `except` only
catches `KeyError`); `nameError` is the `UnboundLocalError` raised by
`if not parent_device_uuid:` when the primary assignment was skipped by
the `except KeyError: pass`; `resolutionFailed` is
`Exception("Unable to get parent device UUID from client details")`. -/
inductive CDErr where
  | indexError
  | nameError
  | resolutionFailed
  deriving DecidableEq, Repr

/-- The single failure `get_interface_details` raises on a well-formed
body: `Exception("Unable to locate interface details of either: UUID or status")`. -/
inductive IDErr where
  | resolutionFailed
  deriving DecidableEq, Repr

/-- Exceptions escaping `interface_shut_no_shut`: a re-raised transport
`HTTPError` (with the response body it carried),
`Exception("Empty Response from the server.")`, the `KeyError` from
`resp1["response"]["taskId"]` when the PUT body lacks a task id, and
`Exception("Interface update task failed")` from the poll loop. -/
inductive OrchErr where
  | httpError (body : String)
  | emptyResponse
  | keyError
  | taskFailed
  deriving DecidableEq, Repr

/-! ## Event traces -/

/-- Observable actions of the orchestrator: a state-change PUT to `url`
with the given `adminStatus` body, one `lookup_task` poll observing a
status, and one fixed `sleep(1)` delay. -/
inductive Ev where
  | put (url : String) (adminStatus : String)
  | taskPoll (status : String)
  | sleepOne
  deriving DecidableEq, Repr

/-- The adminStatus values of the PUT requests in a trace, in order. -/
def putsOf (t : List Ev) : List String :=
  t.filterMap fun e =>
    match e with
    | .put _ a => some a
    | _ => none

/-- Number of fixed-interval delay cycles in a trace. -/
def sleepCount (t : List Ev) : Nat :=
  (t.filter fun e =>
    match e with
    | .sleepOne => true
    | _ => false).length

/-! ## Task polling -/

/-- Terminal result of the poll loop: either the task reached `SUCCESS`
after `delays` sleep cycles, or a non-`SUCCESS` terminal status raised
`Exception("Interface update task failed")` after `delays` sleep cycles. -/
inductive TaskOutcome where
  | success (delays : Nat)
  | taskFailed (delays : Nat)
  deriving DecidableEq, Repr

/-- The inline `while True:` poll loop of `interface_shut_no_shut`
(both branches have the same loop): each iteration calls `lookup_task`
and inspects `task_details["response"]["status"]`.  The environment
scripts the successive observed statuses as a list; the loop consumes
them in order.  `PENDING` sleeps one unit and retries, `SUCCESS` breaks,
anything else raises.  Returns the emitted events together with the
outcome; `none` means the scripted observations ran out while the loop
would still be spinning (the source loop is unbounded). -/
def pollRun : List String → List Ev × Option TaskOutcome
  | [] => ([], none)
  | st :: rest =>
    if st = "PENDING" then
      let r := pollRun rest
      (Ev.taskPoll st :: Ev.sleepOne :: r.1,
        match r.2 with
        | some (.success n) => some (.success (n + 1))
        | some (.taskFailed n) => some (.taskFailed (n + 1))
        | none => none)
    else if st = "SUCCESS" then ([Ev.taskPoll st], some (.success 0))
    else ([Ev.taskPoll st], some (.taskFailed 0))

/-! ## get_client_details -/

/-- Embeds `get_client_details` past the transport layer, acting on the
parsed response body.  Control flow of the source, traced exactly:

* `interface_name = json_resp["detail"]["port"]` — the `port` field.
* Primary: `json_resp.get("detail", {}).get("connectedDevice", {})[0]["id"]`
  inside `try/except KeyError: pass`.
  - key `connectedDevice` absent: `{}[0]` raises `KeyError`, caught, the
    local stays unbound, and `if not parent_device_uuid:` then raises
    `UnboundLocalError` (modelled `nameError`);
  - `connectedDevice == []`: `[][0]` raises `IndexError`, which the
    `except KeyError` clause does not catch — it propagates;
  - first entry without an `"id"` key: `KeyError`, caught, unbound local,
    `nameError` as above;
  - first entry with `"id"` present: the local is bound to that value.
* If the bound value is truthy it is returned; if falsy (empty string) the
  fallback runs: `nodes = json_resp.get("topology", {}).get("nodes", {})`,
  raise the resolution failure when `len(nodes) <= 1`, else return
  `nodes[1].get("id", {})` (which is the falsy `{}` when node 1 has no id). -/
def get_client_details (resp : ClientDetailResp) : Except CDErr (String × PVal) :=
  match resp.connectedDevice with
  | none => .error CDErr.nameError
  | some [] => .error CDErr.indexError
  | some (none :: _) => .error CDErr.nameError
  | some (some s :: _) =>
    if s = "" then
      match resp.nodes with
      | none => .error CDErr.resolutionFailed
      | some l =>
        if l.length ≤ 1 then .error CDErr.resolutionFailed
        else
          match l.get? 1 with
          | some oid => .ok (resp.port, pyGet oid)
          | none => .error CDErr.resolutionFailed
    else .ok (resp.port, PVal.str s)

/-! ## get_interface_details -/

/-- Embeds `get_interface_details` past the transport layer:
`interface_uuid = json_resp.get("response", {}).get("id", {})` and
likewise `adminStatus`; raise when either is falsy, else return both. -/
def get_interface_details (resp : InterfaceResp) : Except IDErr (String × String) :=
  let interface_uuid := pyGet resp.id
  let current_interface_status := pyGet resp.adminStatus
  if !interface_uuid.truthy || !current_interface_status.truthy then
    .error IDErr.resolutionFailed
  else
    match resp.id, resp.adminStatus with
    | some u, some st => .ok (u, st)
    | _, _ => .error IDErr.resolutionFailed

/-! ## interface_shut_no_shut -/

/-- Scripted controller behaviour for one `interface_shut_no_shut` run:
the response to the first PUT, the task statuses successive `lookup_task`
calls would observe, and the response to the second (restoring) PUT of
the `UP` branch. -/
structure OrchEnv where
  put1 : PutRes
  statuses1 : List String
  put2 : PutRes
  deriving DecidableEq, Repr

/-- Overall result of one `interface_shut_no_shut` run: normal return,
an exception, or (model artifact) the scripted task observations ran out
while the unbounded poll loop was still spinning. -/
inductive OrchOutcome where
  | ok
  | err (e : OrchErr)
  | diverged
  deriving DecidableEq, Repr

/-- `query = f"?deploymentMode={mode}"` -/
def shut_query (mode : String) : String :=
  "?deploymentMode=" ++ mode

/-- `url = f"{CCC_URL}/dna/intent/api/v1/interface/{interface_uuid}{query}"` -/
def shut_url (ccc_url interface_uuid mode : String) : String :=
  ccc_url ++ "/dna/intent/api/v1/interface/" ++ interface_uuid ++ shut_query mode

/-- The body text the idempotency tolerance looks for in an `HTTPError`. -/
def noChangeMsg : String := "No change in setting"

/-- Embeds `interface_shut_no_shut(interface_uuid, current_interface_status,
mode="Deploy")`.  The Python default for `mode` is `"Deploy"`; callers that
omit the argument are modelled by passing `"Deploy"` explicitly.  Returns
the event trace (PUTs issued, polls, sleeps) and the outcome.

`DOWN` branch: one PUT setting `adminStatus "UP"`, `raise_for_status`,
empty-body check, `resp1["response"]["taskId"]` access, then the poll loop.
`UP` branch: a PUT setting `"DOWN"` with the same checks and poll loop,
then a second PUT setting `"UP"` inside `try/except HTTPError`: a 2xx with
empty body raises the empty-response exception (not an `HTTPError`, so it
propagates), a 2xx with a body returns immediately without polling, and an
`HTTPError` is swallowed exactly when its body contains
`"No change in setting"`.  Any other status string falls through both
branches and returns with no request issued. -/
def interface_shut_no_shut (ccc_url interface_uuid current_interface_status mode : String)
    (env : OrchEnv) : List Ev × OrchOutcome :=
  let url := shut_url ccc_url interface_uuid mode
  if current_interface_status = "DOWN" then
    match env.put1 with
    | .httpError b => ([Ev.put url "UP"], .err (.httpError b))
    | .ok r =>
      if r.text = "" then ([Ev.put url "UP"], .err .emptyResponse)
      else
        match r.taskId with
        | none => ([Ev.put url "UP"], .err .keyError)
        | some _ =>
          match (pollRun env.statuses1).2 with
          | none => (Ev.put url "UP" :: (pollRun env.statuses1).1, .diverged)
          | some (.success _) => (Ev.put url "UP" :: (pollRun env.statuses1).1, .ok)
          | some (.taskFailed _) =>
            (Ev.put url "UP" :: (pollRun env.statuses1).1, .err .taskFailed)
  else if current_interface_status = "UP" then
    match env.put1 with
    | .httpError b => ([Ev.put url "DOWN"], .err (.httpError b))
    | .ok r =>
      if r.text = "" then ([Ev.put url "DOWN"], .err .emptyResponse)
      else
        match r.taskId with
        | none => ([Ev.put url "DOWN"], .err .keyError)
        | some _ =>
          match (pollRun env.statuses1).2 with
          | none => (Ev.put url "DOWN" :: (pollRun env.statuses1).1, .diverged)
          | some (.taskFailed _) =>
            (Ev.put url "DOWN" :: (pollRun env.statuses1).1, .err .taskFailed)
          | some (.success _) =>
            match env.put2 with
            | .httpError b =>
              if strContains b noChangeMsg then
                (Ev.put url "DOWN" :: (pollRun env.statuses1).1 ++ [Ev.put url "UP"], .ok)
              else
                (Ev.put url "DOWN" :: (pollRun env.statuses1).1 ++ [Ev.put url "UP"],
                  .err (.httpError b))
            | .ok r2 =>
              if r2.text = "" then
                (Ev.put url "DOWN" :: (pollRun env.statuses1).1 ++ [Ev.put url "UP"],
                  .err .emptyResponse)
              else
                (Ev.put url "DOWN" :: (pollRun env.statuses1).1 ++ [Ev.put url "UP"], .ok)
  else ([], .ok)

/-! ## port_bounce -/

/-- Scripted controller behaviour for one `port_bounce` run. -/
structure BounceEnv where
  client : ClientDetailResp
  iface : InterfaceResp
  orch : OrchEnv
  deriving DecidableEq, Repr

/-- A failure in one of the two resolution stages of `port_bounce`. -/
inductive BounceErr where
  | clientErr (e : CDErr)
  | ifaceErr (e : IDErr)
  deriving DecidableEq, Repr

/-- Embeds `port_bounce(mac_address, mode="Deploy")`: resolve client, then
interface, then orchestrate the bounce.  The source calls
`interface_shut_no_shut(interface_uuid=..., current_interface_status=...)`
WITHOUT forwarding its own `mode` argument, so the callee always runs with
its default `"Deploy"`; the embedding reproduces that call faithfully
(`mode` is accepted and then unused, as in the source).  On a resolution
failure no PUT is issued and the exception propagates. -/
def port_bounce (ccc_url mac_address mode : String) (env : BounceEnv) :
    List Ev × Except BounceErr OrchOutcome :=
  match get_client_details env.client with
  | .error e => ([], .error (BounceErr.clientErr e))
  | .ok (_interface_name, _parent_device_uuid) =>
    match get_interface_details env.iface with
    | .error e => ([], .error (BounceErr.ifaceErr e))
    | .ok (interface_uuid, current_interface_status) =>
      let r := interface_shut_no_shut ccc_url interface_uuid current_interface_status
        "Deploy" env.orch
      (r.1, .ok r.2)

end CCC

namespace CCC

/-! ## Helper lemmas -/

@[simp]
theorem putsOf_nil : putsOf [] = [] := rfl

@[simp]
theorem putsOf_cons_put (u a : String) (t : List Ev) :
    putsOf (Ev.put u a :: t) = a :: putsOf t := rfl

@[simp]
theorem putsOf_cons_poll (st : String) (t : List Ev) :
    putsOf (Ev.taskPoll st :: t) = putsOf t := rfl

@[simp]
theorem putsOf_cons_sleep (t : List Ev) :
    putsOf (Ev.sleepOne :: t) = putsOf t := rfl

@[simp]
theorem putsOf_append (a b : List Ev) : putsOf (a ++ b) = putsOf a ++ putsOf b := by
  simp [putsOf, List.filterMap_append]

@[simp]
theorem sleepCount_nil : sleepCount [] = 0 := rfl

@[simp]
theorem sleepCount_cons_put (u a : String) (t : List Ev) :
    sleepCount (Ev.put u a :: t) = sleepCount t := rfl

@[simp]
theorem sleepCount_cons_poll (st : String) (t : List Ev) :
    sleepCount (Ev.taskPoll st :: t) = sleepCount t := rfl

@[simp]
theorem sleepCount_cons_sleep (t : List Ev) :
    sleepCount (Ev.sleepOne :: t) = sleepCount t + 1 := by
  simp [sleepCount, List.filter_cons]

/-- The poll loop issues no PUT requests of its own. -/
@[simp]
theorem putsOf_pollRun (l : List String) : putsOf (pollRun l).1 = [] := by
  induction l with
  | nil => rfl
  | cons st rest ih =>
    by_cases hp : st = "PENDING"
    · simp [pollRun, hp, ih]
    · by_cases hs : st = "SUCCESS" <;> simp [pollRun, hp, hs]

/-- A poll run that reports success ends with the observation of the
`SUCCESS` status: the loop returns only after seeing it. -/
theorem pollRun_success_ends (l : List String) (n : Nat)
    (h : (pollRun l).2 = some (TaskOutcome.success n)) :
    ∃ pre, (pollRun l).1 = pre ++ [Ev.taskPoll "SUCCESS"] := by
  induction l generalizing n with
  | nil => simp [pollRun] at h
  | cons st rest ih =>
    by_cases hp : st = "PENDING"
    · rcases hr : (pollRun rest).2 with _ | o
      · simp [pollRun, hp, hr] at h
      · rcases o with m | m
        · obtain ⟨pre, hpre⟩ := ih m hr
          exact ⟨Ev.taskPoll st :: Ev.sleepOne :: pre, by simp [pollRun, hp, hpre]⟩
        · simp [pollRun, hp, hr] at h
    · by_cases hs : st = "SUCCESS"
      · subst hs
        exact ⟨[], by simp [pollRun, hp]⟩
      · simp [pollRun, hp, hs] at h

/-- Behaviour of the poll loop on a scripted run of `n` `PENDING`
observations followed by a terminal non-`SUCCESS` status. -/
theorem pollRun_fail_terminal (n : Nat) (t : String)
    (h1 : t ≠ "PENDING") (h2 : t ≠ "SUCCESS") :
    (pollRun (List.replicate n "PENDING" ++ [t])).2 = some (TaskOutcome.taskFailed n)
    ∧ sleepCount (pollRun (List.replicate n "PENDING" ++ [t])).1 = n
    ∧ ∃ pre, (pollRun (List.replicate n "PENDING" ++ [t])).1 = pre ++ [Ev.taskPoll t] := by
  induction n with
  | zero =>
    refine ⟨?_, ?_, [], ?_⟩ <;> simp [pollRun, h1, h2]
  | succ n ih =>
    obtain ⟨ho, hs, pre, hpre⟩ := ih
    refine ⟨?_, ?_, Ev.taskPoll "PENDING" :: Ev.sleepOne :: pre, ?_⟩
    · simp [List.replicate_succ, pollRun, ho]
    · simp [List.replicate_succ, pollRun, hs]
    · simp [List.replicate_succ, pollRun, hpre]

end CCC

deriving instance DecidableEq for Except

namespace CCC

/-! ## Claim theorems -/

/-- Claim C1: for an interface whose observed administrative status is
`"UP"`, `interface_shut_no_shut` issues exactly two state-change PUT
requests in order — first `adminStatus "DOWN"`, then `adminStatus "UP"` —
awaits task completion via the poll loop after the first request, and on
the success path of the second request (2xx, non-empty body) returns
normally without polling any task: the trace ends at the second PUT. -/
theorem up_branch_shut_then_noshut (ccc_url uuid mode t1 tid t2 : String)
    (k2 : Option String) (sts : List String) (n : Nat)
    (ht1 : t1 ≠ "") (ht2 : t2 ≠ "")
    (hp : (pollRun sts).2 = some (TaskOutcome.success n)) :
    interface_shut_no_shut ccc_url uuid "UP" mode
      ⟨PutRes.ok ⟨t1, some tid⟩, sts, PutRes.ok ⟨t2, k2⟩⟩ =
      (Ev.put (shut_url ccc_url uuid mode) "DOWN" ::
        ((pollRun sts).1 ++ [Ev.put (shut_url ccc_url uuid mode) "UP"]),
        OrchOutcome.ok)
    ∧ putsOf (interface_shut_no_shut ccc_url uuid "UP" mode
        ⟨PutRes.ok ⟨t1, some tid⟩, sts, PutRes.ok ⟨t2, k2⟩⟩).1 = ["DOWN", "UP"] := by
  have key : interface_shut_no_shut ccc_url uuid "UP" mode
      ⟨PutRes.ok ⟨t1, some tid⟩, sts, PutRes.ok ⟨t2, k2⟩⟩ =
      (Ev.put (shut_url ccc_url uuid mode) "DOWN" ::
        ((pollRun sts).1 ++ [Ev.put (shut_url ccc_url uuid mode) "UP"]),
        OrchOutcome.ok) := by
    simp [interface_shut_no_shut, ht1, ht2, hp]
  refine ⟨key, ?_⟩
  rw [key]
  simp

/-- Witness for C1 at a concrete environment. -/
theorem up_branch_shut_then_noshut_witness :
    interface_shut_no_shut "https://ccc" "if-1" "UP" "Deploy"
      ⟨PutRes.ok ⟨"b1", some "t1"⟩, ["PENDING", "SUCCESS"], PutRes.ok ⟨"b2", none⟩⟩ =
      (Ev.put (shut_url "https://ccc" "if-1" "Deploy") "DOWN" ::
        ((pollRun ["PENDING", "SUCCESS"]).1 ++
          [Ev.put (shut_url "https://ccc" "if-1" "Deploy") "UP"]),
        OrchOutcome.ok) :=
  (up_branch_shut_then_noshut "https://ccc" "if-1" "Deploy" "b1" "t1" "b2" none
    ["PENDING", "SUCCESS"] 1 (by decide) (by decide) (by decide)).1

/-- Claim C2: in the `"UP"` branch, when the restoring PUT raises an HTTP
error, the orchestrator returns normally iff the error body contains the
substring `"No change in setting"`; otherwise that same HTTP error is
re-raised to the caller. -/
theorem up_branch_restore_http_error_tolerance (ccc_url uuid mode t1 tid b : String)
    (sts : List String) (n : Nat) (ht1 : t1 ≠ "")
    (hp : (pollRun sts).2 = some (TaskOutcome.success n)) :
    ((interface_shut_no_shut ccc_url uuid "UP" mode
        ⟨PutRes.ok ⟨t1, some tid⟩, sts, PutRes.httpError b⟩).2 = OrchOutcome.ok
      ↔ strContains b noChangeMsg = true)
    ∧ (strContains b noChangeMsg = false →
        (interface_shut_no_shut ccc_url uuid "UP" mode
          ⟨PutRes.ok ⟨t1, some tid⟩, sts, PutRes.httpError b⟩).2 =
          OrchOutcome.err (OrchErr.httpError b)) := by
  cases hb : strContains b noChangeMsg <;>
    simp [interface_shut_no_shut, ht1, hp, hb]

/-- Witness for C2 at a concrete environment whose error body carries the
tolerated message. -/
theorem up_branch_restore_http_error_tolerance_witness :
    (interface_shut_no_shut "https://ccc" "if-1" "UP" "Deploy"
      ⟨PutRes.ok ⟨"b1", some "t1"⟩, ["SUCCESS"],
        PutRes.httpError "Error 400: No change in setting detected"⟩).2 =
      OrchOutcome.ok :=
  (up_branch_restore_http_error_tolerance "https://ccc" "if-1" "Deploy" "b1" "t1"
    "Error 400: No change in setting detected" ["SUCCESS"] 0 (by decide)
    (by decide)).1.mpr (by decide)

/-- Claim C3 (code-bug evidence): on a client-detail response whose
`connectedDevice` is absent, the primary access raises `KeyError`, the
bare `except KeyError: pass` leaves the local unbound and
`if not parent_device_uuid:` raises `UnboundLocalError`; on an empty
`connectedDevice` list the `[0]` access raises an uncaught `IndexError`.
In both cases the topology fallback never runs, contradicting the claim
that the second topology node id is returned; the fallback is reachable
only when the first entry carries a falsy (empty) id, as the third
conjunct shows. -/
theorem client_details_fallback_unreachable_on_missing_primary :
    get_client_details ⟨"GigabitEthernet1/0/3", none,
        some [some "node-0", some "node-1"]⟩ = .error CDErr.nameError
    ∧ get_client_details ⟨"GigabitEthernet1/0/3", some [],
        some [some "node-0", some "node-1"]⟩ = .error CDErr.indexError
    ∧ get_client_details ⟨"GigabitEthernet1/0/3", some [some ""],
        some [some "node-0", some "node-1"]⟩ =
        .ok ("GigabitEthernet1/0/3", PVal.str "node-1") := by
  decide

/-- Claim C4 (code-bug evidence): `port_bounce` accepts a `mode` argument
but calls `interface_shut_no_shut` without forwarding it, so with
`mode = "Preview"` the issued state-change PUT still targets the
`deploymentMode=Deploy` URL, which differs from the `Preview` URL and does
not mention `deploymentMode=Preview` at all. -/
theorem port_bounce_ignores_mode_argument :
    (port_bounce "https://ccc" "00:A2:89:AA:AA:AA" "Preview"
      ⟨⟨"GigabitEthernet1/0/3", some [some "dev-1"], none⟩,
        ⟨some "if-1", some "DOWN"⟩,
        ⟨PutRes.ok ⟨"task-body", some "task-1"⟩, ["SUCCESS"],
          PutRes.ok ⟨"x", none⟩⟩⟩).1 =
      [Ev.put (shut_url "https://ccc" "if-1" "Deploy") "UP", Ev.taskPoll "SUCCESS"]
    ∧ shut_url "https://ccc" "if-1" "Deploy" ≠ shut_url "https://ccc" "if-1" "Preview"
    ∧ strContains (shut_url "https://ccc" "if-1" "Deploy") "deploymentMode=Preview"
        = false := by
  decide

/-- Claim C5: a client-detail response whose `connectedDevice` list is
non-empty and whose first entry carries a (non-empty) identifier resolves
to that identifier, for every topology value — the topology data is never
consulted. -/
theorem client_details_primary_connected_device (port s : String)
    (rest : List (Option String)) (nd : Option (List (Option String)))
    (hs : s ≠ "") :
    get_client_details ⟨port, some (some s :: rest), nd⟩ =
      .ok (port, PVal.str s) := by
  simp [get_client_details, hs]

/-- Witness for C5 at a concrete response. -/
theorem client_details_primary_connected_device_witness :
    get_client_details ⟨"GigabitEthernet1/0/3", some [some "dev-1"], none⟩ =
      .ok ("GigabitEthernet1/0/3", PVal.str "dev-1") :=
  client_details_primary_connected_device "GigabitEthernet1/0/3" "dev-1" [] none
    (by decide)

/-- Claim C6 (code-bug evidence): with no `connectedDevice` entry and a
topology node list of length at most one, `get_client_details` does not
raise the resolution-failure `Exception`: an absent `connectedDevice`
raises `UnboundLocalError` and an empty list raises `IndexError`.  The
resolution-failure error is reached only when the first entry carries a
falsy (empty) id, as the third conjunct shows. -/
theorem client_details_no_primary_wrong_error_class :
    get_client_details ⟨"GigabitEthernet1/0/3", none, some [some "node-0"]⟩ =
      .error CDErr.nameError
    ∧ get_client_details ⟨"GigabitEthernet1/0/3", some [], none⟩ =
      .error CDErr.indexError
    ∧ get_client_details ⟨"GigabitEthernet1/0/3", some [some ""], some [some "node-0"]⟩ =
      .error CDErr.resolutionFailed := by
  decide

/-- Claim C7: for an interface whose observed administrative status is
`"DOWN"`, `interface_shut_no_shut` issues exactly one state-change PUT
(setting `adminStatus "UP"`) and no PUT setting `"DOWN"`, and returns only
after the polled task reaches `SUCCESS`: the trace is the single PUT
followed by the poll events, whose final event is the `SUCCESS`
observation. -/
theorem down_branch_single_put_awaits_success (ccc_url uuid mode t1 tid : String)
    (sts : List String) (n : Nat) (p2 : PutRes) (ht1 : t1 ≠ "")
    (hp : (pollRun sts).2 = some (TaskOutcome.success n)) :
    interface_shut_no_shut ccc_url uuid "DOWN" mode
      ⟨PutRes.ok ⟨t1, some tid⟩, sts, p2⟩ =
      (Ev.put (shut_url ccc_url uuid mode) "UP" :: (pollRun sts).1, OrchOutcome.ok)
    ∧ putsOf (interface_shut_no_shut ccc_url uuid "DOWN" mode
        ⟨PutRes.ok ⟨t1, some tid⟩, sts, p2⟩).1 = ["UP"]
    ∧ ∃ pre, (pollRun sts).1 = pre ++ [Ev.taskPoll "SUCCESS"] := by
  have key : interface_shut_no_shut ccc_url uuid "DOWN" mode
      ⟨PutRes.ok ⟨t1, some tid⟩, sts, p2⟩ =
      (Ev.put (shut_url ccc_url uuid mode) "UP" :: (pollRun sts).1,
        OrchOutcome.ok) := by
    simp [interface_shut_no_shut, ht1, hp]
  refine ⟨key, ?_, pollRun_success_ends sts n hp⟩
  rw [key]
  simp

/-- Witness for C7 at a concrete environment. -/
theorem down_branch_single_put_awaits_success_witness :
    interface_shut_no_shut "https://ccc" "if-1" "DOWN" "Deploy"
      ⟨PutRes.ok ⟨"b1", some "t1"⟩, ["PENDING", "SUCCESS"], PutRes.ok ⟨"b2", none⟩⟩ =
      (Ev.put (shut_url "https://ccc" "if-1" "Deploy") "UP" ::
        (pollRun ["PENDING", "SUCCESS"]).1, OrchOutcome.ok) :=
  (down_branch_single_put_awaits_success "https://ccc" "if-1" "Deploy" "b1" "t1"
    ["PENDING", "SUCCESS"] 1 (PutRes.ok ⟨"b2", none⟩) (by decide) (by decide)).1

/-- Claim C8: on the scripted observations `[PENDING, PENDING, SUCCESS]`
the poll loop performs exactly two fixed-interval delay cycles and returns
normally; on any run of `PENDING`s ended by a terminal status other than
`SUCCESS`, it raises the task-failure error immediately upon observing
that status (the delay count equals the number of preceding `PENDING`s and
the final event is the terminal observation itself). -/
theorem poll_loop_delays_and_failure (n : Nat) (t : String)
    (h1 : t ≠ "PENDING") (h2 : t ≠ "SUCCESS") :
    (pollRun ["PENDING", "PENDING", "SUCCESS"] =
        ([Ev.taskPoll "PENDING", Ev.sleepOne, Ev.taskPoll "PENDING", Ev.sleepOne,
          Ev.taskPoll "SUCCESS"], some (TaskOutcome.success 2))
      ∧ sleepCount (pollRun ["PENDING", "PENDING", "SUCCESS"]).1 = 2)
    ∧ ((pollRun (List.replicate n "PENDING" ++ [t])).2 =
        some (TaskOutcome.taskFailed n)
      ∧ sleepCount (pollRun (List.replicate n "PENDING" ++ [t])).1 = n
      ∧ ∃ pre, (pollRun (List.replicate n "PENDING" ++ [t])).1 =
          pre ++ [Ev.taskPoll t]) :=
  ⟨⟨by decide, by decide⟩, pollRun_fail_terminal n t h1 h2⟩

/-- Witness for C8 at a concrete failing terminal status. -/
theorem poll_loop_delays_and_failure_witness :
    (pollRun (List.replicate 1 "PENDING" ++ ["FAILURE"])).2 =
      some (TaskOutcome.taskFailed 1) :=
  ((poll_loop_delays_and_failure 1 "FAILURE" (by decide) (by decide)).2).1

/-- Claim C9: `get_interface_details` fails with the resolution-failure
error exactly when the interface id or the admin status is missing or
empty, and returns the pair `(interfaceId, adminStatus)` when both are
present and non-empty. -/
theorem interface_details_requires_id_and_status (oid ost : Option String) :
    (get_interface_details ⟨oid, ost⟩ = .error IDErr.resolutionFailed ↔
      oid = none ∨ oid = some "" ∨ ost = none ∨ ost = some "")
    ∧ ∀ u st, oid = some u → ost = some st → u ≠ "" → st ≠ "" →
        get_interface_details ⟨oid, ost⟩ = .ok (u, st) := by
  constructor
  · rcases oid with _ | u <;> rcases ost with _ | st
    · simp [get_interface_details, pyGet]
    · simp [get_interface_details, pyGet]
    · simp [get_interface_details, pyGet]
    · by_cases hu : u = "" <;> by_cases hst : st = "" <;>
        simp [get_interface_details, pyGet, PVal.truthy, hu, hst]
  · intro u st hu hst hne hne'
    subst hu
    subst hst
    simp [get_interface_details, pyGet, PVal.truthy, hne, hne']

/-- Witness for C9: one valid and one invalid concrete lookup. -/
theorem interface_details_requires_id_and_status_witness :
    get_interface_details ⟨some "if-1", some "UP"⟩ = .ok ("if-1", "UP")
    ∧ get_interface_details ⟨none, some "UP"⟩ = .error IDErr.resolutionFailed :=
  ⟨(interface_details_requires_id_and_status (some "if-1") (some "UP")).2
      "if-1" "UP" rfl rfl (by decide) (by decide),
    (interface_details_requires_id_and_status none (some "UP")).1.mpr (Or.inl rfl)⟩

/-- Claim C10: on any observed administrative status other than the exact
strings `"UP"` and `"DOWN"`, `interface_shut_no_shut` falls through both
branches: it issues no request, polls no task, and returns normally. -/
theorem unknown_status_noop (ccc_url uuid status mode : String) (env : OrchEnv)
    (h1 : status ≠ "DOWN") (h2 : status ≠ "UP") :
    interface_shut_no_shut ccc_url uuid status mode env = ([], OrchOutcome.ok) := by
  simp [interface_shut_no_shut, h1, h2]

/-- Witness for C10 at a concrete unknown status. -/
theorem unknown_status_noop_witness :
    interface_shut_no_shut "https://ccc" "if-1" "TESTING" "Deploy"
      ⟨PutRes.ok ⟨"b1", some "t1"⟩, ["SUCCESS"], PutRes.ok ⟨"b2", none⟩⟩ =
      ([], OrchOutcome.ok) :=
  unknown_status_noop "https://ccc" "if-1" "TESTING" "Deploy"
    ⟨PutRes.ok ⟨"b1", some "t1"⟩, ["SUCCESS"], PutRes.ok ⟨"b2", none⟩⟩
    (by decide) (by decide)

end CCC
